import Mathlib

/-!
Shallow embedding of the real-time audio session client of the Aavaaz
clinical interaction system.

The component under study is the React `AudioStreamer` component
(src/unnamed/part_002) together with the event handler
`handleTranscriptUpdate` of the host `App` component
(src/frontend/src/App.js, identical logic in src/unnamed/part_000).

Modelling conventions:
- The single-threaded cooperative scheduling of the browser is modelled
  by a step function on an explicit state record: each callback runs to
  completion before the next event is delivered.
- The session WebSocket is modelled by the readyState of the (unique)
  socket created by `connectWebSocket` (`wsReady`, `none` before any
  socket is created) and by a flag `wsRefSet` recording whether
  `websocketRef.current` still points at it (`ws.onclose` sets the ref
  to null while closures such as `recorder.ondataavailable` keep the
  socket itself).
- `ws.send(...)` is recorded by appending the message to `outbound`;
  base64 conversion of a chunk by FileReader is abstracted by carrying
  the chunk's data in the audio message.
- `console.log` / `console.error` / `alert` are I/O without state
  effect and are not modelled.
-/

namespace Aavaaz

/-- Connection status values reported through onConnectionStatusChange:
the strings 'disconnected', 'connecting', 'connected'. -/
inductive ConnStatus
  | disconnected
  | connecting
  | connected
deriving DecidableEq, Repr

/-- WebSocket readyState values (CONNECTING, OPEN, CLOSING, CLOSED);
WebSocket.OPEN is rendered as `opened` because `open` is reserved. -/
inductive WsReady
  | connecting
  | opened
  | closing
  | closed
deriving DecidableEq, Repr

/-- MediaRecorder.state values ('inactive', 'recording', 'paused'). -/
inductive RecState
  | inactive
  | recording
  | paused
deriving DecidableEq, Repr

/-- Outbound WebSocket frames sent by the client: audio frames
(type 'audio', carrying the chunk data) and stop frames (type 'stop'). -/
inductive OutMsg
  | audio (data : String)
  | stop
deriving DecidableEq, Repr

/-- State of one AudioStreamer component instance (src/unnamed/part_002):
the two useState booleans, the three refs, the device handle, plus the
externally observable quantities (last reported connection status and
recording flag, the sequence of frames given to ws.send, and whether
getUserMedia was ever invoked). -/
structure SState where
  isRecording : Bool
  isConnecting : Bool
  audioChunks : List String
  wsReady : Option WsReady
  wsRefSet : Bool
  recorder : Option RecState
  tracksLive : Bool
  connStatus : ConnStatus
  callerRec : Bool
  outbound : List OutMsg
  micAttempted : Bool
deriving DecidableEq, Repr

/-- Component state at mount: useState(false) twice, empty chunk list,
null refs, no device, and the caller's initial mirrors. -/
def initState : SState where
  isRecording := false
  isConnecting := false
  audioChunks := []
  wsReady := none
  wsRefSet := false
  recorder := none
  tracksLive := false
  connStatus := ConnStatus.disconnected
  callerRec := false
  outbound := []
  micAttempted := false

/-- Environment of one startRecording run: whether the WebSocket reaches
onopen (versus onerror), and whether getUserMedia resolves. -/
structure Env where
  wsOpens : Bool
  micOk : Bool
deriving DecidableEq, Repr

/-- Outcome of the promise returned by an async function. -/
inductive PromiseOutcome
  | resolved
  | rejected
deriving DecidableEq, Repr

/-- connectWebSocket (src/unnamed/part_002 lines 27-72): sets
isConnecting, reports 'connecting', creates the socket and stores it in
websocketRef, then either onopen fires (reports 'connected', resolves
with the socket) or onerror fires (reports 'disconnected', rejects).
The Bool result is true iff the promise resolved. -/
def connectWebSocket (wsOpens : Bool) (s : SState) : SState × Bool :=
  let s := { s with
    isConnecting := true
    connStatus := ConnStatus.connecting
    wsReady := some WsReady.connecting
    wsRefSet := true }
  if wsOpens then
    ({ s with
        isConnecting := false
        connStatus := ConnStatus.connected
        wsReady := some WsReady.opened }, true)
  else
    ({ s with
        isConnecting := false
        connStatus := ConnStatus.disconnected
        wsReady := some WsReady.closed }, false)

/-- startRecording (src/unnamed/part_002 lines 74-133): awaits
connectWebSocket, then getUserMedia, then creates the MediaRecorder,
resets audioChunksRef, starts the recorder in 100 ms chunks, sets
isRecording and reports it. Any rejection lands in the catch block
(lines 127-132), which only resets isConnecting, reports
'disconnected' and alerts; the error is swallowed, so the async
function's own promise resolves on every path. The catch does not
close the socket. -/
def startRecording (env : Env) (s : SState) : SState × PromiseOutcome :=
  let p := connectWebSocket env.wsOpens s
  let s := p.1
  if p.2 then
    if env.micOk then
      -- getUserMedia resolved: device acquired, recorder created and started
      let s := { s with
        micAttempted := true
        tracksLive := true
        audioChunks := []
        recorder := some RecState.recording
        isRecording := true
        callerRec := true }
      (s, PromiseOutcome.resolved)
    else
      -- getUserMedia rejected: catch block, socket left as it is
      let s := { s with
        micAttempted := true
        isConnecting := false
        connStatus := ConnStatus.disconnected }
      (s, PromiseOutcome.resolved)
  else
    -- connectWebSocket rejected: catch block, getUserMedia never called
    let s := { s with
      isConnecting := false
      connStatus := ConnStatus.disconnected }
    (s, PromiseOutcome.resolved)

/-- recorder.ondataavailable together with the FileReader onloadend it
schedules (src/unnamed/part_002 lines 97-114): a chunk with size > 0 is
pushed on audioChunksRef and then sent as an audio frame if the closure
socket ws has readyState OPEN; otherwise the frame is dropped. -/
def onDataAvailable (data : String) (s : SState) : SState :=
  if 0 < data.length then
    let s := { s with audioChunks := s.audioChunks ++ [data] }
    if s.wsReady = some WsReady.opened then
      { s with outbound := s.outbound ++ [OutMsg.audio data] }
    else s
  else s

/-- mediaRecorderRef.current && mediaRecorderRef.current.state !==
'inactive' (src/unnamed/part_002 lines 136 and 21). -/
def recorderActive : Option RecState → Bool
  | some RecState.recording => true
  | some RecState.paused => true
  | _ => false

/-- stopRecording (src/unnamed/part_002 lines 135-148): stops the
recorder when it is non-null and not inactive (its onstop handler stops
the stream tracks, releasing the device), then sends a stop frame when
websocketRef.current is non-null with readyState OPEN, then clears
isRecording and reports it. -/
def stopRecording (s : SState) : SState :=
  let s :=
    if recorderActive s.recorder then
      { s with recorder := some RecState.inactive, tracksLive := false }
    else s
  let s :=
    if s.wsRefSet ∧ s.wsReady = some WsReady.opened then
      { s with outbound := s.outbound ++ [OutMsg.stop] }
    else s
  { s with isRecording := false, callerRec := false }

/-- ws.onclose (src/unnamed/part_002 lines 56-61): resets isConnecting,
reports 'disconnected' and nulls websocketRef; the socket itself is in
readyState CLOSED when onclose fires. Nothing else is touched. -/
def wsOnClose (s : SState) : SState :=
  { s with
    isConnecting := false
    connStatus := ConnStatus.disconnected
    wsRefSet := false
    wsReady := s.wsReady.map fun _ => WsReady.closed }

/-- Events deliverable to a mounted AudioStreamer after startRecording
returned: a recorder data chunk, a caller stop() call, or the socket's
close event. -/
inductive SEvent
  | dataAvailable (data : String)
  | stopCall
  | wsClose
deriving DecidableEq, Repr

/-- One callback dispatch on the shared task queue. -/
def step (s : SState) (e : SEvent) : SState :=
  match e with
  | SEvent.dataAvailable d => onDataAvailable d s
  | SEvent.stopCall => stopRecording s
  | SEvent.wsClose => wsOnClose s

/-- A finite sequence of callbacks, run in delivery order. -/
def runEvents (s : SState) (es : List SEvent) : SState :=
  es.foldl step s

/-- State reached by a fully successful startRecording from a fresh
mount: socket open and recording. -/
def goodStart : SState :=
  (startRecording { wsOpens := true, micOk := true } initState).1

/-- State reached when the socket opened but getUserMedia failed. -/
def micFailStart : SState :=
  (startRecording { wsOpens := true, micOk := false } initState).1

/-! ### The App-level inbound event handler (src/frontend/src/App.js) -/

/-- A parsed inbound WebSocket frame as consumed by
handleTranscriptUpdate: a type discriminator string and the payload
fields the handler reads (text, message, report). -/
structure InboundFrame where
  type : String
  text : String
  message : String
  report : Option String
deriving DecidableEq, Repr

/-- App component state touched by handleTranscriptUpdate
(src/frontend/src/App.js lines 15-19): final transcript, partial
transcript, insight report, recording flag and connection status. -/
structure AppState where
  transcript : String
  partialTranscript : String
  insightReport : Option String
  isRecording : Bool
  connectionStatus : ConnStatus
deriving DecidableEq, Repr

/-- handleTranscriptUpdate (src/frontend/src/App.js lines 51-66, same
code in src/unnamed/part_000): dispatch on data.type.
partial_transcript sets the partial text; final_transcript sets the
transcript and clears the partial; insight_report stores the report and
clears isRecording; status_update only logs; error logs and clears
isRecording; any other type falls through the chain with no effect. -/
def handleTranscriptUpdate (s : AppState) (data : InboundFrame) : AppState :=
  if data.type = "partial_transcript" then
    { s with partialTranscript := data.text }
  else if data.type = "final_transcript" then
    { s with transcript := data.text, partialTranscript := "" }
  else if data.type = "insight_report" then
    { s with insightReport := data.report, isRecording := false }
  else if data.type = "status_update" then
    s
  else if data.type = "error" then
    { s with isRecording := false }
  else
    s

end Aavaaz

namespace Aavaaz

/-! ### C1: disconnect handling versus the recording flag -/

/-- C1 counterexample: from the reachable fully-recording state, delivering
the socket's close event leaves isRecording (and the caller-visible
recording flag) true while ConnectionStatus has become disconnected,
refuting that a disconnected transition forces RecordingState false
within the same synchronous reaction. -/
theorem c1_disconnect_leaves_recording_true :
    (step goodStart SEvent.wsClose).isRecording = true ∧
    (step goodStart SEvent.wsClose).callerRec = true ∧
    (step goodStart SEvent.wsClose).connStatus = ConnStatus.disconnected := by
  decide

/-- C1 amended: the close handler resets isConnecting, reports
ConnectionStatus disconnected and nulls the socket ref, but leaves both
recording flags unchanged, so recording stays observably true across a
disconnect that happens while recording. -/
theorem c1_amended_disconnect_preserves_recording (s : SState) :
    (step s SEvent.wsClose).isRecording = s.isRecording ∧
    (step s SEvent.wsClose).callerRec = s.callerRec ∧
    (step s SEvent.wsClose).connStatus = ConnStatus.disconnected ∧
    (step s SEvent.wsClose).wsRefSet = false := by
  simp [step, wsOnClose]

/-! ### C2: two consecutive stop() calls -/

/-- C2 counterexample: from the reachable recording state, two
consecutive stop() calls with no intervening start() put two stop
frames on the wire, and the second call is not a no-op, refuting that
at most one stop message is sent in total. -/
theorem c2_double_stop_sends_two_stop_frames :
    (step (step goodStart SEvent.stopCall) SEvent.stopCall).outbound
      = [OutMsg.stop, OutMsg.stop] ∧
    step (step goodStart SEvent.stopCall) SEvent.stopCall
      ≠ step goodStart SEvent.stopCall := by
  decide

/-- C2 amended: from any recording state whose socket ref is set and
open, the first stop() releases the capture device and sends one stop
frame, and a second stop() skips the (now inactive) recorder but sends
a second stop frame because nothing closed the socket; the device stays
released. -/
theorem c2_amended_second_stop_resends_while_open (s : SState)
    (hrec : recorderActive s.recorder = true)
    (href : s.wsRefSet = true)
    (hws : s.wsReady = some WsReady.opened) :
    (step s SEvent.stopCall).tracksLive = false ∧
    (step s SEvent.stopCall).recorder = some RecState.inactive ∧
    (step s SEvent.stopCall).outbound = s.outbound ++ [OutMsg.stop] ∧
    (step (step s SEvent.stopCall) SEvent.stopCall).outbound
      = s.outbound ++ [OutMsg.stop, OutMsg.stop] ∧
    (step (step s SEvent.stopCall) SEvent.stopCall).tracksLive = false := by
  have hA : recorderActive (some RecState.inactive) = false := rfl
  simp [step, stopRecording, hrec, href, hws, hA, List.append_assoc]

/-- C2 amended, instantiated at the reachable recording state. -/
theorem c2_amended_second_stop_resends_while_open_witness :
    (recorderActive goodStart.recorder = true ∧
      goodStart.wsRefSet = true ∧
      goodStart.wsReady = some WsReady.opened) ∧
    ((step goodStart SEvent.stopCall).tracksLive = false ∧
      (step goodStart SEvent.stopCall).recorder = some RecState.inactive ∧
      (step goodStart SEvent.stopCall).outbound = goodStart.outbound ++ [OutMsg.stop] ∧
      (step (step goodStart SEvent.stopCall) SEvent.stopCall).outbound
        = goodStart.outbound ++ [OutMsg.stop, OutMsg.stop] ∧
      (step (step goodStart SEvent.stopCall) SEvent.stopCall).tracksLive = false) :=
  ⟨by decide,
    c2_amended_second_stop_resends_while_open goodStart (by decide) (by decide) (by decide)⟩

/-! ### C3: cleanup after capture failure -/

/-- C3 counterexample: after the channel opened and capture acquisition
failed, the socket is still in readyState OPEN (close was never called
on it), refuting that the already-opened channel is closed as cleanup
before the attempt ends. -/
theorem c3_channel_left_open_after_capture_failure :
    micFailStart.wsReady = some WsReady.opened ∧
    micFailStart.wsRefSet = true ∧
    micFailStart.connStatus = ConnStatus.disconnected := by
  decide

/-- C3 amended: when the channel opens but capture acquisition fails,
the catch block only reports ConnectionStatus disconnected; no device
was acquired, the run's promise still resolves, and the socket is left
open with the ref still set - no cleanup close happens. -/
theorem c3_amended_capture_failure_no_cleanup (s : SState) :
    (startRecording { wsOpens := true, micOk := false } s).1.wsReady
      = some WsReady.opened ∧
    (startRecording { wsOpens := true, micOk := false } s).1.wsRefSet = true ∧
    (startRecording { wsOpens := true, micOk := false } s).1.connStatus
      = ConnStatus.disconnected ∧
    (startRecording { wsOpens := true, micOk := false } s).1.tracksLive = s.tracksLive ∧
    (startRecording { wsOpens := true, micOk := false } s).2 = PromiseOutcome.resolved := by
  simp [startRecording, connectWebSocket]

/-! ### C4: channel open failure -/

/-- C4 counterexample: when the channel fails to open, startRecording's
returned promise does not reject (the catch block swallows the error),
refuting the rejection part of the claim; the microphone is indeed
never requested and the status ends disconnected. -/
theorem c4_start_promise_resolves_on_open_failure :
    (startRecording { wsOpens := false, micOk := true } initState).2
      ≠ PromiseOutcome.rejected ∧
    (startRecording { wsOpens := false, micOk := true } initState).1.micAttempted = false ∧
    (startRecording { wsOpens := false, micOk := true } initState).1.connStatus
      = ConnStatus.disconnected := by
  decide

/-- C4 amended: when the channel open fails, startRecording catches the
rejection internally, so its own promise resolves; getUserMedia is
never invoked, no device is acquired, and ConnectionStatus ends at
disconnected. -/
theorem c4_amended_open_failure_caught (s : SState) (b : Bool) :
    (startRecording { wsOpens := false, micOk := b } s).2 = PromiseOutcome.resolved ∧
    (startRecording { wsOpens := false, micOk := b } s).1.micAttempted = s.micAttempted ∧
    (startRecording { wsOpens := false, micOk := b } s).1.tracksLive = s.tracksLive ∧
    (startRecording { wsOpens := false, micOk := b } s).1.connStatus
      = ConnStatus.disconnected := by
  simp [startRecording, connectWebSocket]

end Aavaaz

namespace Aavaaz

/-! ### C5: inbound error events -/

/-- C5 counterexample: handling an error frame from a state in which
recording is on does change state - isRecording is cleared - refuting
that error events leave RecordingState and ConnectionStatus untouched
as a pure advisory. -/
theorem c5_error_event_clears_recording :
    handleTranscriptUpdate
        ⟨"t", "p", none, true, ConnStatus.connected⟩
        ⟨"error", "", "m", none⟩
      ≠ ⟨"t", "p", none, true, ConnStatus.connected⟩ ∧
    (handleTranscriptUpdate
        ⟨"t", "p", none, true, ConnStatus.connected⟩
        ⟨"error", "", "m", none⟩).isRecording = false := by
  decide

/-- C5 amended: an inbound error frame leaves the transcripts, the
report and the connection status unchanged but forces isRecording to
false (besides being logged). -/
theorem c5_amended_error_event_effect (s : AppState) (t m : String)
    (r : Option String) :
    handleTranscriptUpdate s ⟨"error", t, m, r⟩
      = { s with isRecording := false } := by
  rfl

/-! ### C6: three buffers then stop -/

/-- C6: from the state reached by a fully successful startRecording,
three produced (non-empty) buffers followed by a stop() call put
exactly three audio frames, in production order, and then one stop
frame on the wire. -/
theorem c6_three_buffers_then_stop_order (b1 b2 b3 : String)
    (h1 : 0 < b1.length) (h2 : 0 < b2.length) (h3 : 0 < b3.length) :
    (runEvents goodStart
      [SEvent.dataAvailable b1, SEvent.dataAvailable b2,
       SEvent.dataAvailable b3, SEvent.stopCall]).outbound
      = [OutMsg.audio b1, OutMsg.audio b2, OutMsg.audio b3, OutMsg.stop] := by
  have hg : goodStart =
      ⟨true, false, [], some WsReady.opened, true, some RecState.recording,
        true, ConnStatus.connected, true, [], true⟩ := by decide
  rw [hg]
  simp [runEvents, step, onDataAvailable, stopRecording, recorderActive, h1, h2, h3]

/-- C6 instantiated on three concrete one-byte buffers. -/
theorem c6_three_buffers_then_stop_order_witness :
    (0 < "x".length ∧ 0 < "y".length ∧ 0 < "z".length) ∧
    (runEvents goodStart
      [SEvent.dataAvailable "x", SEvent.dataAvailable "y",
       SEvent.dataAvailable "z", SEvent.stopCall]).outbound
      = [OutMsg.audio "x", OutMsg.audio "y", OutMsg.audio "z", OutMsg.stop] :=
  ⟨by decide,
    c6_three_buffers_then_stop_order "x" "y" "z" (by decide) (by decide) (by decide)⟩

/-! ### C7: sends versus ConnectionStatus -/

/-- C7 counterexample: in the reachable state where the channel opened
and capture acquisition then failed, ConnectionStatus reads
disconnected while the socket is still open, and a stop() call there
does send a stop frame - an outbound message sent while
ConnectionStatus is not connected. -/
theorem c7_stop_sent_while_status_disconnected :
    micFailStart.connStatus ≠ ConnStatus.connected ∧
    (step micFailStart SEvent.stopCall).outbound
      = micFailStart.outbound ++ [OutMsg.stop] := by
  decide

/-- C7 amended: every send is gated by the socket's own readyState, not
by the mirrored ConnectionStatus: one callback either leaves the
outbound sequence unchanged (the message, if any, is dropped, never
queued) or appends exactly one message while the socket is in
readyState OPEN. -/
theorem c7_amended_sends_gated_by_socket_open (s : SState) (e : SEvent) :
    (step s e).outbound = s.outbound ∨
    (s.wsReady = some WsReady.opened ∧
      ∃ m, (step s e).outbound = s.outbound ++ [m]) := by
  cases e with
  | dataAvailable d =>
      by_cases hd : 0 < d.length
      · by_cases hw : s.wsReady = some WsReady.opened
        · exact Or.inr ⟨hw, OutMsg.audio d, by simp [step, onDataAvailable, hd, hw]⟩
        · exact Or.inl (by simp [step, onDataAvailable, hd, hw])
      · exact Or.inl (by simp [step, onDataAvailable, hd])
  | stopCall =>
      by_cases hr : recorderActive s.recorder = true
      · by_cases hw : s.wsRefSet ∧ s.wsReady = some WsReady.opened
        · exact Or.inr ⟨hw.2, OutMsg.stop, by simp [step, stopRecording, hr, hw]⟩
        · exact Or.inl (by simp [step, stopRecording, hr, hw])
      · by_cases hw : s.wsRefSet ∧ s.wsReady = some WsReady.opened
        · exact Or.inr ⟨hw.2, OutMsg.stop, by simp [step, stopRecording, hr, hw]⟩
        · exact Or.inl (by simp [step, stopRecording, hr, hw])
  | wsClose =>
      exact Or.inl (by simp [step, wsOnClose])

/-! ### C8: unknown inbound kinds -/

/-- C8: an inbound frame whose type discriminator is none of the five
recognized kinds falls through the whole dispatch chain: the App state
(transcripts, report, recording flag, connection status) is returned
unchanged, and the total Lean function raises nothing. -/
theorem c8_unknown_kind_no_state_change (s : AppState) (f : InboundFrame)
    (h : f.type ∉ ["partial_transcript", "final_transcript", "insight_report",
      "status_update", "error"]) :
    handleTranscriptUpdate s f = s := by
  simp only [List.mem_cons, List.mem_singleton, not_or] at h
  obtain ⟨h1, h2, h3, h4, h5, -⟩ := h
  simp [handleTranscriptUpdate, h1, h2, h3, h4, h5]

/-- C8 instantiated on the frame of Scenario D. -/
theorem c8_unknown_kind_no_state_change_witness :
    ((⟨"unknown_kind", "", "", none⟩ : InboundFrame).type
        ∉ ["partial_transcript", "final_transcript", "insight_report",
          "status_update", "error"]) ∧
    handleTranscriptUpdate
        ⟨"t", "p", none, true, ConnStatus.connected⟩
        ⟨"unknown_kind", "", "", none⟩
      = ⟨"t", "p", none, true, ConnStatus.connected⟩ :=
  ⟨by decide, c8_unknown_kind_no_state_change _ _ (by decide)⟩

/-! ### C9: insight reports end recording -/

/-- C9: handling an insight_report frame sets isRecording to false (and
stores the report) from every prior App state, whether or not a stop
was ever issued. -/
theorem c9_insight_report_forces_recording_false (s : AppState)
    (t m : String) (r : Option String) :
    (handleTranscriptUpdate s ⟨"insight_report", t, m, r⟩).isRecording = false ∧
    (handleTranscriptUpdate s ⟨"insight_report", t, m, r⟩).insightReport = r := by
  exact ⟨rfl, rfl⟩

/-! ### C10: final transcripts replace, not append -/

/-- C10: handling a final_transcript frame replaces the stored
transcript by the frame's text - the previous transcript does not occur
in the result - and resets the pending partial transcript to the empty
string in the same reaction. -/
theorem c10_final_transcript_replaces_and_clears_partial (s : AppState)
    (t m : String) (r : Option String) :
    handleTranscriptUpdate s ⟨"final_transcript", t, m, r⟩
      = { s with transcript := t, partialTranscript := "" } := by
  rfl

end Aavaaz
